import Mathlib

/-!
Shallow embedding of `publicAPI/crest_utils.py` (ProsperAPI): the cache-backed
id-validation pipeline (`write_cache_entry`, `endpoint_to_kwarg`,
`fetch_crest_endpoint`, `validate_id`) together with a small model of the
Python / tinydb expression semantics needed to give the cache-read query its
actual meaning.

Modelling conventions:
* timestamps and identifiers are `Int` (the code uses POSIX-second floats and
  ints; the claims only compare exact second values);
* the opaque JSON payload (`data_payload` / `type_info`) is never inspected by
  the code, so it is modelled as a flat association list `List (String × Int)`;
* a tinydb table is the list of its documents, in insertion order;
* the network is an oracle `String → HttpResponse` passed in the environment;
* Python exceptions become an explicit error type `PyErr`; a `try/except`
  block becomes a `match` on an `Except` value.
-/

namespace CrestUtils

/-- Opaque structured payload stored in / returned from the cache.  The code
never looks inside it, so a flat key-value mapping suffices. -/
abbrev Payload := List (String × Int)

/-- A tinydb document of the cache table, as written by `write_cache_entry`
(crest_utils.py 60-76): fields `cache_datetime`, `payload`, `index_key`. -/
structure CacheEntry where
  cache_datetime : Int
  payload : Payload
  index_key : Int
deriving DecidableEq, Repr

/-- Python exceptions that can arise in `crest_utils.py`, plus the custom
exception classes of `publicAPI.exceptions` used there. -/
inductive PyErr where
  | OSError (msg : String)
  | AttributeError (msg : String)
  | TypeError (msg : String)
  | UnboundLocalError (name : String)
  | KeyError (key : String)
  | UnsupportedCrestEndpoint (msg : String)
  | CrestAddressError (msg : String)
  | HTTPError (status : Nat)
  | JSONDecodeError
  | IDValidationError (status : Int) (message : String)
deriving DecidableEq, Repr

/-- `write_cache_entry(tinydb_handle, index_key, data_payload)`
(crest_utils.py 44-76): if `search(Query().index_key == index_key)` is
non-empty, `update` sets `cache_datetime` and `payload` on every matching
document (tinydb's `update` leaves the other fields, here `index_key`, in
place); otherwise `insert` appends a fresh document with all three fields.
`now` stands for `datetime.utcnow().timestamp()` at the moment of the call. -/
def write_cache_entry (table : List CacheEntry) (index_key : Int) (now : Int)
    (data_payload : Payload) : List CacheEntry :=
  if !(table.filter (fun e => e.index_key == index_key)).isEmpty then
    table.map (fun e =>
      if e.index_key == index_key then
        { e with cache_datetime := now, payload := data_payload }
      else e)
  else
    table ++ [{ cache_datetime := now, payload := data_payload, index_key := index_key }]

/-- `endpoint_to_kwarg(endpoint_name, type_id)` (crest_utils.py 78-103):
`'inventory_types'` maps to `{'type_id': type_id}`, `'map_regions'` to
`{'region_id': type_id}`, anything else raises
`UnsupportedCrestEndpoint('No configuration for ' + str(endpoint_name))`.
It reads and writes no state, so it is a pure function here exactly as in
the source. -/
def endpoint_to_kwarg (endpoint_name : String) (type_id : Int) :
    Except PyErr (List (String × Int)) :=
  if endpoint_name == "inventory_types" then
    .ok [("type_id", type_id)]
  else if endpoint_name == "map_regions" then
    .ok [("region_id", type_id)]
  else
    .error (.UnsupportedCrestEndpoint ("No configuration for " ++ endpoint_name))

/-! ### A small model of the Python / tinydb expression semantics

`validate_id` builds its cache query with the source expression
(crest_utils.py 135-136)

  `Query().cache_datetime >= cache_time & Query().index_key == type_id`

Python's `&` binds tighter than the comparison operators, so this is the
chained comparison `Query().cache_datetime >= (cache_time & Query().index_key)
== type_id`.  To settle the claims about this query we model just enough of
Python evaluation: the values involved (numbers, booleans, tinydb query
objects) and the operators `&`, `>=`, `==` on them. -/

/-- Comparison operators appearing in the cache query. -/
inductive CmpOp where
  | ge
  | eq
deriving DecidableEq, Repr

/-- Python run-time values involved in the cache query: numbers, booleans,
a bare tinydb field accessor `Query().f`, a field comparison query
(`Query().f >= n`, `Query().f == n`), and a conjunction of queries
(tinydb supports `&` between two query objects). -/
inductive PyVal where
  | int (n : Int)
  | pybool (b : Bool)
  | query (field : String)
  | qcmp (field : String) (op : CmpOp) (bound : Int)
  | qand (a b : PyVal)
deriving DecidableEq, Repr

/-- Is the value a tinydb comparison/conjunction query object (the operands
tinydb's `&` accepts)? -/
def PyVal.isQuery : PyVal → Bool
  | .qcmp _ _ _ => true
  | .qand _ _ => true
  | _ => false

/-- Python truthiness: `0` and `False` are falsy, other numbers truthy,
objects (query instances) truthy by default. -/
def PyVal.truthy : PyVal → Bool
  | .int n => n != 0
  | .pybool b => b
  | _ => true

/-- Python `&`: bitwise on two ints; tinydb's query conjunction on two query
objects; any other operand pairing (in particular a number with a bare field
accessor, which is what the mis-parsed cache query produces) supports neither
`__and__` nor `__rand__` and raises `TypeError`. -/
def py_and : PyVal → PyVal → Except PyErr PyVal
  | .int a, .int b => .ok (.int (Int.land a b))
  | a, b =>
    if a.isQuery && b.isQuery then .ok (.qand a b)
    else .error (.TypeError "unsupported operand type(s) for &")

/-- Python `>=`: on a bare tinydb field accessor and a number it builds the
comparison query; on two numbers it compares; other pairings are unorderable. -/
def py_ge : PyVal → PyVal → Except PyErr PyVal
  | .query f, .int n => .ok (.qcmp f .ge n)
  | .int a, .int b => .ok (.pybool (decide (a ≥ b)))
  | _, _ => .error (.TypeError "unorderable types for comparison")

/-- Python `==`: on a bare tinydb field accessor and a number it builds the
equality query; on two numbers it compares; Python `==` between unrelated
objects falls back to identity and yields `False` rather than raising. -/
def py_eq : PyVal → PyVal → Except PyErr PyVal
  | .query f, .int n => .ok (.qcmp f .eq n)
  | .int a, .int b => .ok (.pybool (a == b))
  | _, _ => .ok (.pybool false)

/-- Abstract syntax of the query expression, as Python parses it. -/
inductive PyExpr where
  | intconst (n : Int)
  | qfield (name : String)
  | band (a b : PyExpr)
  | chainGeEq (a b c : PyExpr)
deriving DecidableEq, Repr

/-- Evaluate a `PyExpr` following Python: `band` evaluates both operands then
applies `&`; the chained comparison `a >= b == c` evaluates `a`, then `b`
(once), compares, and only if `a >= b` is truthy evaluates `c` and returns
`b == c`, short-circuiting otherwise. -/
def pyeval : PyExpr → Except PyErr PyVal
  | .intconst n => .ok (.int n)
  | .qfield f => .ok (.query f)
  | .band a b => do
      let va ← pyeval a
      let vb ← pyeval b
      py_and va vb
  | .chainGeEq a b c => do
      let va ← pyeval a
      let vb ← pyeval b
      let r1 ← py_ge va vb
      if r1.truthy then do
        let vc ← pyeval c
        py_eq vb vc
      else .ok r1

/-- The argument expression of the cache lookup (crest_utils.py 135-136),
parsed with Python's precedence: `&` binds tighter than `>=`/`==`, giving the
chained comparison
`Query().cache_datetime >= (cache_time & Query().index_key) == type_id`. -/
def cache_query_src (cache_time type_id : Int) : PyExpr :=
  .chainGeEq (.qfield "cache_datetime")
    (.band (.intconst cache_time) (.qfield "index_key"))
    (.intconst type_id)

/-- Field access on a cache document, for evaluating tinydb queries. -/
def CacheEntry.field_val (e : CacheEntry) : String → Option Int
  | "cache_datetime" => some e.cache_datetime
  | "index_key" => some e.index_key
  | _ => none

/-- Does a tinydb query object match a document?  A comparison query checks
the named field; a conjunction requires both sides; a document missing the
field, or a non-query value, matches nothing. -/
def query_matches : PyVal → CacheEntry → Bool
  | .qcmp f .ge n, e =>
      match e.field_val f with
      | some v => decide (v ≥ n)
      | none => false
  | .qcmp f .eq n, e =>
      match e.field_val f with
      | some v => v == n
      | none => false
  | .qand a b, e => query_matches a e && query_matches b e
  | _, _ => false

/-- Modelled from the spec: the cache-store lookup `db_handle.find(query)`
called at crest_utils.py 134.  The `find` method is not part of this
repository (it would live in the tinydb dependency), so per §4.2 of the spec
it returns the first entry matching the query and "not found" (`none`)
otherwise, never an error.  In `validate_id` this call is never reached:
evaluating its argument expression already raises. -/
def tinydb_find (table : List CacheEntry) (q : PyVal) :
    Except PyErr (Option CacheEntry) :=
  .ok (table.find? (query_matches q))

/-! ### Configuration, remote fetcher and the validation orchestrator -/

/-- One piece of a parameterized address template: literal text or a
substitution hole (`str.format` placeholder). -/
inductive TPart where
  | lit (s : String)
  | hole (key : String)
deriving DecidableEq, Repr

/-- A remote address template, e.g. `inventoryTypes/` followed by a
`type_id` hole. -/
abbrev Template := List TPart

/-- The parts of the `ConfigParser` object that `crest_utils.py` reads:
the `RESOURCES` section (endpoint name to address template), the `GLOBAL`
useragent, and the `CACHING` sde_cache_limit (TTL in seconds, already
through `int(...)`). -/
structure Config where
  resources : List (String × Template)
  useragent : String
  sde_cache_limit : Int
deriving DecidableEq, Repr

/-- `str.format(**kwargs)` on a template: substitute each hole from the
keyword arguments, raising `KeyError` on a missing key (extra keys are
fine). -/
def render (t : Template) (kwargs : List (String × Int)) : Except PyErr String :=
  match t with
  | [] => .ok ""
  | .lit s :: rest => (render rest kwargs).map (fun r => s ++ r)
  | .hole k :: rest =>
      match kwargs.lookup k with
      | none => .error (.KeyError k)
      | some v => (render rest kwargs).map (fun r => toString v ++ r)

/-- The body of the `try` block at crest_utils.py 130-137 — the cache read of
`validate_id`.  `db_handle = setup_cache_file(endpoint_name)` raises when the
cache store is unreachable (`store_ok = false`); `config.get('CACHING',
'sde_cache_limit')` raises `AttributeError` when `config` is `None` (the
default binding, since `api_config.CONFIG` is `None` when `validate_id` is
defined); then `db_handle.find(...)` first evaluates its mis-parsed argument
expression `cache_query_src`, which raises `TypeError` (see `py_and`).
The `find` call itself (`tinydb_find`) is therefore unreachable. -/
def cache_read_block (store_ok : Bool) (table : List CacheEntry)
    (config : Option Config) (now type_id : Int) :
    Except PyErr (Option CacheEntry) :=
  if !store_ok then .error (.OSError "unable to open cache file")
  else
    match config with
    | none => .error (.AttributeError "NoneType object has no attribute get")
    | some cfg =>
      let cache_time := now - cfg.sde_cache_limit
      match pyeval (cache_query_src cache_time type_id) with
      | .error e => .error e
      | .ok q => tinydb_find table q

/-- An HTTP response: status code and, when the body parses as JSON, the
parsed payload (`none` models an unparseable body). -/
structure HttpResponse where
  status : Nat
  body : Option Payload
deriving DecidableEq, Repr

/-- Outcome of `fetch_crest_endpoint`: the returned payload or the raised
exception, plus whether the network request was actually issued. -/
structure FetchOut where
  result : Except PyErr Payload
  attempted : Bool
deriving Repr

/-- `fetch_crest_endpoint(endpoint_name, crest_base, config, **kwargs)`
(crest_utils.py 200-241): look up the address template in `RESOURCES`
(`UnsupportedCrestEndpoint` if absent; `AttributeError` first if `config` is
`None`), substitute the kwargs (`KeyError` is re-raised as
`CrestAddressError`), then `requests.get`; `raise_for_status` raises
`HTTPError` on any 4xx/5xx status and `req.json()` raises on an unparseable
body, so the caller never receives a payload on failure. -/
def fetch_crest_endpoint (crest_base : String) (config : Option Config)
    (http_get : String → HttpResponse) (endpoint_name : String)
    (kwargs : List (String × Int)) : FetchOut :=
  match config with
  | none => ⟨.error (.AttributeError "NoneType object has no attribute get"), false⟩
  | some cfg =>
    match cfg.resources.lookup endpoint_name with
    | none =>
        ⟨.error (.UnsupportedCrestEndpoint
          ("No " ++ endpoint_name ++ " found in [RESOURCES]")), false⟩
    | some tmpl =>
      match render (.lit crest_base :: tmpl) kwargs with
      | .error (.KeyError k) => ⟨.error (.CrestAddressError ("KeyError: " ++ k)), false⟩
      | .error e => ⟨.error e, false⟩
      | .ok crest_url =>
        let req := http_get crest_url
        if 400 ≤ req.status ∧ req.status < 600 then
          ⟨.error (.HTTPError req.status), true⟩
        else
          match req.body with
          | none => ⟨.error .JSONDecodeError, true⟩
          | some data => ⟨.ok data, true⟩

/-- What `validate_id` hands back on its two return statements: `return
cache_val` at line 150 returns the found cache document itself, while
`return type_info` at line 197 returns the fetched payload. -/
inductive RetVal where
  | payload (p : Payload)
  | document (e : CacheEntry)
deriving DecidableEq, Repr

/-- The ambient state a `validate_id` call runs against: whether the local
cache store is reachable, the contents of the endpoint's cache table, the
network oracle, and the current UTC timestamp. -/
structure Env where
  store_ok : Bool
  table : List CacheEntry
  http_get : String → HttpResponse
  now : Int

/-- Observable outcome of a `validate_id` call: returned value or raised
exception, the cache table afterwards, and whether a network request was
issued. -/
structure VResult where
  result : Except PyErr RetVal
  table : List CacheEntry
  fetch_attempted : Bool

/-- The fetch-and-update tail of `validate_id` (crest_utils.py 152-197):
`endpoint_to_kwarg` then `fetch_crest_endpoint` inside one `try`, any
exception replaced by `IDValidationError(404, 'Unable to validate
endpoint:id')`; on success the `write_cache_entry(db_handle, ...)` call is
wrapped in `try/except: pass`, so it only changes the table when the local
`db_handle` was ever bound (it is bound only inside the non-bypass cache
branch) and the store is reachable — otherwise the raised
`UnboundLocalError` (or store error) is swallowed and the fetched payload is
returned anyway. -/
def validate_fetch_path (env : Env) (config : Option Config) (crest_base : String)
    (endpoint_name : String) (type_id : Int) (db_handle_bound : Bool) : VResult :=
  let fo : FetchOut :=
    match endpoint_to_kwarg endpoint_name type_id with
    | .error e => ⟨.error e, false⟩
    | .ok kwarg_pair =>
        fetch_crest_endpoint crest_base config env.http_get endpoint_name kwarg_pair
  match fo.result with
  | .error _ =>
      ⟨.error (.IDValidationError 404
          ("Unable to validate " ++ endpoint_name ++ ":" ++ toString type_id)),
        env.table, fo.attempted⟩
  | .ok type_info =>
      let table1 :=
        if db_handle_bound && env.store_ok then
          write_cache_entry env.table type_id env.now type_info
        else env.table
      ⟨.ok (.payload type_info), table1, fo.attempted⟩

/-- `validate_id(endpoint_name, type_id, cache_buster, config)`
(crest_utils.py 105-197).  With `cache_buster` false it runs the cache-read
`try` block; on any exception there the handler logs and `pass`es, after
which `if cache_val:` reads the local `cache_val` that the failed block never
assigned, so `UnboundLocalError` propagates out of `validate_id` (`cache_val`
is assigned only by the block's final statement).  A truthy `cache_val`
(a found document) is returned as-is, skipping CREST; otherwise, and always
when `cache_buster` is true, control reaches the fetch-and-update tail. -/
def validate_id (env : Env) (config : Option Config) (crest_base : String)
    (endpoint_name : String) (type_id : Int) (cache_buster : Bool) : VResult :=
  if cache_buster then
    validate_fetch_path env config crest_base endpoint_name type_id false
  else
    match cache_read_block env.store_ok env.table config env.now type_id with
    | .error _ => ⟨.error (.UnboundLocalError "cache_val"), env.table, false⟩
    | .ok (some entry) => ⟨.ok (.document entry), env.table, false⟩
    | .ok none => validate_fetch_path env config crest_base endpoint_name type_id true

/-- The freshness comparison of the cache query (crest_utils.py 132-135):
an entry passes the timestamp test when `cache_datetime >= cache_time` with
`cache_time = now - sde_cache_limit`.  This is the `>=` atom as written in
the source, read under the logical-AND combination the spec states as the
intended semantics of the query (spec §9; the raw expression itself
mis-parses, see `cache_query_src`). -/
def is_fresh_code (entry_timestamp now ttl_seconds : Int) : Bool :=
  decide (entry_timestamp ≥ now - ttl_seconds)

/-- The Freshness Policy as the spec words it (§4.3): `is_fresh(entry_ts,
now, ttl) = now - entry_ts < ttl`.  Stated for comparison with
`is_fresh_code`. -/
def is_fresh_spec (entry_timestamp now ttl_seconds : Int) : Bool :=
  decide (now - entry_timestamp < ttl_seconds)

/-- Number of documents of the table whose `index_key` equals `k` — the
length of the result of `search(Query().index_key == k)`. -/
def keyCount (table : List CacheEntry) (k : Int) : Nat :=
  (table.filter (fun e => e.index_key == k)).length

/-- The table keeps at most one document per `index_key`: its list of keys
has no duplicates (the invariant of spec §3). -/
def NoDupKeys (table : List CacheEntry) : Prop :=
  (table.map (fun e => e.index_key)).Nodup

/-! ### Helper lemmas about the cache write -/

theorem upd_index_key (e : CacheEntry) (k now : Int) (p : Payload) :
    (if e.index_key == k then { e with cache_datetime := now, payload := p }
      else e).index_key = e.index_key := by
  split <;> rfl

theorem map_upd_keys (t : List CacheEntry) (k now : Int) (p : Payload) :
    ((t.map (fun e => if e.index_key == k then
        { e with cache_datetime := now, payload := p } else e)).map
      (fun e => e.index_key)) = t.map (fun e => e.index_key) := by
  induction t with
  | nil => rfl
  | cons a t ih =>
      simp only [List.map_cons, ih, upd_index_key]

theorem keyCount_eq_count_keys (t : List CacheEntry) (k : Int) :
    keyCount t k = (t.map (fun e => e.index_key)).count k := by
  induction t with
  | nil => rfl
  | cons a t ih =>
      by_cases h : a.index_key = k
      · simp [keyCount, List.filter_cons, List.count_cons, h] at ih ⊢
        omega
      · simp [keyCount, List.filter_cons, List.count_cons, h] at ih ⊢
        exact ih

theorem write_cache_entry_present (t : List CacheEntry) (k now : Int) (p : Payload)
    (h : (t.filter (fun e => e.index_key == k)).isEmpty = false) :
    write_cache_entry t k now p =
      t.map (fun e => if e.index_key == k then
        { e with cache_datetime := now, payload := p } else e) := by
  simp [write_cache_entry, h]

theorem write_cache_entry_absent (t : List CacheEntry) (k now : Int) (p : Payload)
    (h : (t.filter (fun e => e.index_key == k)).isEmpty = true) :
    write_cache_entry t k now p =
      t ++ [{ cache_datetime := now, payload := p, index_key := k }] := by
  simp [write_cache_entry, h]

theorem keyCount_write_eq_one (t : List CacheEntry) (k now : Int) (p : Payload)
    (h : NoDupKeys t) : keyCount (write_cache_entry t k now p) k = 1 := by
  by_cases hemp : (t.filter (fun e => e.index_key == k)).isEmpty = true
  · rw [write_cache_entry_absent t k now p hemp]
    have hnil : t.filter (fun e => e.index_key == k) = [] :=
      List.isEmpty_iff.mp hemp
    simp [keyCount, List.filter_append, hnil]
  · rw [write_cache_entry_present t k now p (by simpa using hemp)]
    have hkeys := map_upd_keys t k now p
    have hcount : keyCount (t.map (fun e => if e.index_key == k then
        { e with cache_datetime := now, payload := p } else e)) k = keyCount t k := by
      rw [keyCount_eq_count_keys, hkeys, keyCount_eq_count_keys]
    rw [hcount]
    have hle : keyCount t k ≤ 1 := by
      rw [keyCount_eq_count_keys]
      exact List.nodup_iff_count_le_one.mp h k
    have hge : 1 ≤ keyCount t k := by
      have : t.filter (fun e => e.index_key == k) ≠ [] := by
        intro hc
        simp [List.isEmpty_iff.mpr hc] at hemp
      have := List.length_pos.mpr this
      simpa [keyCount] using this
    omega

theorem noDupKeys_write (t : List CacheEntry) (k now : Int) (p : Payload)
    (h : NoDupKeys t) : NoDupKeys (write_cache_entry t k now p) := by
  by_cases hemp : (t.filter (fun e => e.index_key == k)).isEmpty = true
  · rw [write_cache_entry_absent t k now p hemp]
    have hnil : t.filter (fun e => e.index_key == k) = [] :=
      List.isEmpty_iff.mp hemp
    have hnotin : k ∉ t.map (fun e => e.index_key) := by
      intro hk
      obtain ⟨e, he, hek⟩ := List.mem_map.mp hk
      have := List.filter_eq_nil_iff.mp hnil e he
      simp [hek] at this
    unfold NoDupKeys
    rw [List.map_append]
    exact List.Nodup.append h (List.nodup_singleton k)
      (by simpa [List.disjoint_singleton] using hnotin)
  · rw [write_cache_entry_present t k now p (by simpa using hemp)]
    unfold NoDupKeys
    rw [map_upd_keys]
    exact h

/-! ### Claim theorems -/

/-- C4: upsert invariant of `write_cache_entry` — on a table with at most one
document per `index_key`, a write preserves that invariant, two successive
writes to the same key leave exactly one document for that key, and after the
second write every document for that key carries the second write's timestamp
and payload. -/
theorem write_cache_entry_upsert_invariant (t : List CacheEntry)
    (k n1 n2 : Int) (p1 p2 : Payload) (h : NoDupKeys t) :
    NoDupKeys (write_cache_entry t k n1 p1) ∧
    keyCount (write_cache_entry (write_cache_entry t k n1 p1) k n2 p2) k = 1 ∧
    ∀ e ∈ write_cache_entry (write_cache_entry t k n1 p1) k n2 p2,
      e.index_key = k → e.cache_datetime = n2 ∧ e.payload = p2 := by
  have h1 : NoDupKeys (write_cache_entry t k n1 p1) := noDupKeys_write t k n1 p1 h
  refine ⟨h1, keyCount_write_eq_one _ k n2 p2 h1, ?_⟩
  have hcnt : keyCount (write_cache_entry t k n1 p1) k = 1 :=
    keyCount_write_eq_one t k n1 p1 h
  have hne : ((write_cache_entry t k n1 p1).filter
      (fun e => e.index_key == k)).isEmpty = false := by
    have : ((write_cache_entry t k n1 p1).filter
        (fun e => e.index_key == k)).length = 1 := hcnt
    cases hfil : (write_cache_entry t k n1 p1).filter (fun e => e.index_key == k) with
    | nil => rw [hfil] at this; simp at this
    | cons a l => simp
  rw [write_cache_entry_present _ k n2 p2 hne]
  intro e he hek
  obtain ⟨x, _, hx⟩ := List.mem_map.mp he
  by_cases hxk : x.index_key = k
  · rw [← hx]
    simp [hxk]
  · rw [← hx] at hek
    simp [hxk] at hek

/-- C4 witness: the upsert invariant applied to a concrete one-document
table, written twice for key 7. -/
theorem write_cache_entry_upsert_invariant_witness :
    NoDupKeys [⟨0, [("a", 1)], 7⟩] ∧
    (NoDupKeys (write_cache_entry [⟨0, [("a", 1)], 7⟩] 7 1 [("b", 2)]) ∧
     keyCount (write_cache_entry (write_cache_entry [⟨0, [("a", 1)], 7⟩] 7 1 [("b", 2)])
       7 2 [("c", 3)]) 7 = 1 ∧
     ∀ e ∈ write_cache_entry (write_cache_entry [⟨0, [("a", 1)], 7⟩] 7 1 [("b", 2)])
       7 2 [("c", 3)], e.index_key = 7 → e.cache_datetime = 2 ∧ e.payload = [("c", 3)]) :=
  ⟨by unfold NoDupKeys; decide,
   write_cache_entry_upsert_invariant [⟨0, [("a", 1)], 7⟩] 7 1 2 [("b", 2)] [("c", 3)]
     (by unfold NoDupKeys; decide)⟩

/-- C10: frame property of an updating write — when the key is already
present, `write_cache_entry` leaves every document's `index_key` unchanged
(the key list is preserved pointwise), leaves documents with other keys
entirely unchanged, and the entry stays retrievable under the same key. -/
theorem write_cache_entry_update_frame (t : List CacheEntry) (k n : Int)
    (p : Payload)
    (h : (t.filter (fun e => e.index_key == k)).isEmpty = false) :
    ((write_cache_entry t k n p).map (fun e => e.index_key) =
      t.map (fun e => e.index_key)) ∧
    (∀ e ∈ t, e.index_key ≠ k → e ∈ write_cache_entry t k n p) ∧
    ∃ e ∈ write_cache_entry t k n p, e.index_key = k := by
  rw [write_cache_entry_present t k n p h]
  refine ⟨map_upd_keys t k n p, ?_, ?_⟩
  · intro e he hne
    have : (if e.index_key == k then
        { e with cache_datetime := n, payload := p } else e) = e := by
      simp [hne]
    rw [← this]
    exact List.mem_map_of_mem _ he
  · have hnil : t.filter (fun e => e.index_key == k) ≠ [] := by
      intro hc
      simp [List.isEmpty_iff.mpr hc] at h
    obtain ⟨x, hx⟩ := List.exists_mem_of_ne_nil _ hnil
    have hxt : x ∈ t := List.mem_of_mem_filter hx
    have hxk : x.index_key = k := by
      have := List.of_mem_filter hx
      simpa using this
    refine ⟨if x.index_key == k then
        { x with cache_datetime := n, payload := p } else x,
      List.mem_map_of_mem _ hxt, ?_⟩
    simp [hxk]

/-- C10 witness: the frame property applied to a concrete two-document table
updated at key 7. -/
theorem write_cache_entry_update_frame_witness :
    (([⟨0, [("a", 1)], 7⟩, ⟨1, [("b", 2)], 8⟩] : List CacheEntry).filter
      (fun e => e.index_key == 7)).isEmpty = false ∧
    (((write_cache_entry [⟨0, [("a", 1)], 7⟩, ⟨1, [("b", 2)], 8⟩] 7 9 [("c", 3)]).map
        (fun e => e.index_key) =
      ([⟨0, [("a", 1)], 7⟩, ⟨1, [("b", 2)], 8⟩] : List CacheEntry).map
        (fun e => e.index_key)) ∧
     (∀ e ∈ ([⟨0, [("a", 1)], 7⟩, ⟨1, [("b", 2)], 8⟩] : List CacheEntry),
        e.index_key ≠ 7 →
        e ∈ write_cache_entry [⟨0, [("a", 1)], 7⟩, ⟨1, [("b", 2)], 8⟩] 7 9 [("c", 3)]) ∧
     ∃ e ∈ write_cache_entry [⟨0, [("a", 1)], 7⟩, ⟨1, [("b", 2)], 8⟩] 7 9 [("c", 3)],
       e.index_key = 7) :=
  ⟨by decide,
   write_cache_entry_update_frame [⟨0, [("a", 1)], 7⟩, ⟨1, [("b", 2)], 8⟩] 7 9 [("c", 3)]
     (by decide)⟩

/-- C9: the endpoint resolver maps `inventory_types` to a `type_id` kwarg and
`map_regions` to a `region_id` kwarg for every identifier, and raises
`UnsupportedCrestEndpoint` for every other endpoint name; it is a pure
function of its arguments. -/
theorem endpoint_to_kwarg_mapping (type_id : Int) :
    endpoint_to_kwarg "inventory_types" type_id = .ok [("type_id", type_id)] ∧
    endpoint_to_kwarg "map_regions" type_id = .ok [("region_id", type_id)] ∧
    ∀ endpoint_name : String,
      endpoint_name ≠ "inventory_types" → endpoint_name ≠ "map_regions" →
      endpoint_to_kwarg endpoint_name type_id =
        .error (.UnsupportedCrestEndpoint ("No configuration for " ++ endpoint_name)) := by
  refine ⟨rfl, rfl, fun endpoint_name h1 h2 => ?_⟩
  simp [endpoint_to_kwarg, h1, h2]

/-- C9 witness: the resolver mapping at ids 587 and 10000002, and the error
at a concrete unknown endpoint name. -/
theorem endpoint_to_kwarg_mapping_witness :
    endpoint_to_kwarg "inventory_types" 587 = .ok [("type_id", 587)] ∧
    endpoint_to_kwarg "map_regions" 10000002 = .ok [("region_id", 10000002)] ∧
    endpoint_to_kwarg "not_a_real_endpoint" 587 =
      .error (.UnsupportedCrestEndpoint "No configuration for not_a_real_endpoint") :=
  ⟨(endpoint_to_kwarg_mapping 587).1,
   (endpoint_to_kwarg_mapping 10000002).2.1,
   (endpoint_to_kwarg_mapping 587).2.2 "not_a_real_endpoint" (by decide) (by decide)⟩

/-- C3 counterexample: at `entry_timestamp = 0`, `now = 5`, `ttl = 5` we have
`now - cache_datetime = ttl_seconds`, which the claim calls stale, yet the
code's freshness comparison accepts the entry (and the spec's own formula
rejects it). -/
theorem is_fresh_boundary_counterexample :
    is_fresh_code 0 5 5 = true ∧ is_fresh_spec 0 5 5 = false := by
  decide

/-- C3 amended: the code's freshness comparison treats an entry as fresh
exactly when `now - entry_timestamp ≤ ttl_seconds` (so a difference equal to
`ttl_seconds` is still fresh, and `ttl_seconds + 1` or more is stale); the
comparison is the `>=` atom of the cache query applied to the
`cache_datetime` field. -/
theorem is_fresh_code_le_iff (entry_timestamp now ttl_seconds : Int) :
    (is_fresh_code entry_timestamp now ttl_seconds = true ↔
      now - entry_timestamp ≤ ttl_seconds) ∧
    ∀ e : CacheEntry,
      query_matches (.qcmp "cache_datetime" .ge (now - ttl_seconds)) e =
        is_fresh_code e.cache_datetime now ttl_seconds := by
  constructor
  · constructor
    · intro h
      have := of_decide_eq_true h
      omega
    · intro h
      apply decide_eq_true
      omega
  · intro e
    rfl

/-- Helper: the cache-read `try` block of `validate_id` raises on every
input — the store may be unreachable, a `None` config has no `.get`, and
otherwise the mis-parsed query expression raises `TypeError`. -/
theorem cache_read_block_err (store_ok : Bool) (table : List CacheEntry)
    (config : Option Config) (now type_id : Int) :
    ∃ e, cache_read_block store_ok table config now type_id = .error e := by
  cases store_ok with
  | false => exact ⟨_, rfl⟩
  | true =>
    cases config with
    | none => exact ⟨_, rfl⟩
    | some cfg => exact ⟨_, rfl⟩

/-- C1: with `cache_bypass` false the pipeline can never succeed, let alone
idempotently: for every environment, configuration and identifier the
cache-read block raises, the handler discards the exception, and
`if cache_val:` then raises `UnboundLocalError` out of `validate_id` — no
remote fetch happens and no cached payload is ever returned, so a first call
never succeeds and a second call has no cached result to reuse. -/
theorem validate_id_no_bypass_always_raises (env : Env) (config : Option Config)
    (crest_base endpoint_name : String) (type_id : Int) :
    validate_id env config crest_base endpoint_name type_id false =
      ⟨.error (.UnboundLocalError "cache_val"), env.table, false⟩ := by
  obtain ⟨e, he⟩ := cache_read_block_err env.store_ok env.table config env.now type_id
  simp [validate_id, he]

/-- C2: the cache lookup does not implement the fresh-AND-key-match
conjunction and does not degrade to "not found": because `&` binds tighter
than the comparisons, the query expression evaluates `cache_time &
Query().index_key` and raises `TypeError` for every cutoff and identifier,
so with a reachable store and a real config the whole read step errors
instead of returning an entry or "not found". -/
theorem cache_query_type_error (cache_time type_id : Int) :
    pyeval (cache_query_src cache_time type_id) =
      .error (.TypeError "unsupported operand type(s) for &") ∧
    ∀ (table : List CacheEntry) (cfg : Config) (now : Int),
      cache_read_block true table (some cfg) now type_id =
        .error (.TypeError "unsupported operand type(s) for &") :=
  ⟨rfl, fun _ _ _ => rfl⟩

/-- C5: a cache-store failure during the read step is fatal rather than a
cache miss — with the store unreachable and `cache_bypass` false,
`validate_id` raises `UnboundLocalError` (the swallowed setup failure leaves
`cache_val` unbound) instead of proceeding to the remote fetch, for every
configuration and identifier. -/
theorem validate_id_store_failure_fatal (table : List CacheEntry)
    (http_get : String → HttpResponse) (now : Int) (config : Option Config)
    (crest_base endpoint_name : String) (type_id : Int) :
    validate_id ⟨false, table, http_get, now⟩ config crest_base endpoint_name
        type_id false =
      ⟨.error (.UnboundLocalError "cache_val"), table, false⟩ := by
  rfl

/-- C6: for the unknown endpoint name `not_a_real_endpoint` with identifier
123, the bypass path raises `IDValidationError` (wrapping the resolver's
`UnsupportedCrestEndpoint`) with no network request and no cache change;
the default (non-bypass) path, however, raises `UnboundLocalError` from the
broken cache read before endpoint resolution is even reached — also with no
network request and no cache change. -/
theorem validate_id_unknown_endpoint (env : Env) (config : Option Config)
    (crest_base : String) :
    validate_id env config crest_base "not_a_real_endpoint" 123 true =
      ⟨.error (.IDValidationError 404 "Unable to validate not_a_real_endpoint:123"),
        env.table, false⟩ ∧
    validate_id env config crest_base "not_a_real_endpoint" 123 false =
      ⟨.error (.UnboundLocalError "cache_val"), env.table, false⟩ := by
  constructor
  · rfl
  · obtain ⟨e, he⟩ := cache_read_block_err env.store_ok env.table config env.now 123
    simp [validate_id, he]

/-- C7: remote failure — with a configured `inventory_types` endpoint, when
the remote answers 404 (first conjunct) or answers 200 with an unparseable
body (second conjunct), the bypass path raises `IDValidationError`, writes no
cache entry, and hands the caller no payload; with `cache_bypass` false
(third conjunct) the call raises `UnboundLocalError` before the remote is
ever consulted, again leaving the cache unchanged. -/
theorem validate_id_remote_failure (store_ok : Bool) (table : List CacheEntry)
    (now ttl : Int) (crest_base ua : String) (body : Option Payload) (type_id : Int) :
    (validate_id ⟨store_ok, table, fun _ => ⟨404, body⟩, now⟩
        (some ⟨[("inventory_types", [TPart.lit "inventoryTypes/", TPart.hole "type_id"])],
          ua, ttl⟩)
        crest_base "inventory_types" type_id true =
      ⟨.error (.IDValidationError 404
          ("Unable to validate inventory_types:" ++ toString type_id)), table, true⟩) ∧
    (validate_id ⟨store_ok, table, fun _ => ⟨200, none⟩, now⟩
        (some ⟨[("inventory_types", [TPart.lit "inventoryTypes/", TPart.hole "type_id"])],
          ua, ttl⟩)
        crest_base "inventory_types" type_id true =
      ⟨.error (.IDValidationError 404
          ("Unable to validate inventory_types:" ++ toString type_id)), table, true⟩) ∧
    (validate_id ⟨store_ok, table, fun _ => ⟨404, body⟩, now⟩
        (some ⟨[("inventory_types", [TPart.lit "inventoryTypes/", TPart.hole "type_id"])],
          ua, ttl⟩)
        crest_base "inventory_types" type_id false =
      ⟨.error (.UnboundLocalError "cache_val"), table, false⟩) := by
  refine ⟨rfl, rfl, ?_⟩
  obtain ⟨e, he⟩ := cache_read_block_err store_ok table
    (some ⟨[("inventory_types", [TPart.lit "inventoryTypes/", TPart.hole "type_id"])],
      ua, ttl⟩) now type_id
  simp [validate_id, he]

/-- C8: bypass semantics — with `cache_bypass` true the remote fetch is
performed even though a cache document for the key sits at the head of the
table, and on success the fetched payload is returned; but the cache is NOT
overwritten: `db_handle` is never bound on the bypass path, so
`write_cache_entry` raises `UnboundLocalError`, the handler swallows it, and
the table is returned exactly as it was. -/
theorem validate_id_bypass_no_cache_write (entry : CacheEntry)
    (table : List CacheEntry) (now ttl : Int) (crest_base ua : String)
    (data : Payload) (type_id : Int) :
    validate_id ⟨true, entry :: table, fun _ => ⟨200, some data⟩, now⟩
        (some ⟨[("inventory_types", [TPart.lit "inventoryTypes/", TPart.hole "type_id"])],
          ua, ttl⟩)
        crest_base "inventory_types" type_id true =
      ⟨.ok (.payload data), entry :: table, true⟩ := by
  rfl

end CrestUtils
